import Mathlib

/-! Verification of the vibely request-dispatch core.

Shallow embedding of the request analyzer (`src/remote-vibe/src/analyzer/index.ts`),
the tool-adapter execution/streaming layer (`src/remote-vibe/src/adapters/base.ts`
and the concrete adapters), and the session manager, together with proofs of the
specification's claims about them.

Strings are modelled by Lean `String` (a wrapper around `List Char`); the
JavaScript string operations used by the source (`toLowerCase`, `trim`,
`includes`, the global file-marker regex scan) are embedded as structurally
recursive functions over the character list so that all definitions evaluate
inside the kernel.
-/

namespace Vibely

/-! Part: Request analyzer (src/remote-vibe/src/analyzer/index.ts) -/

/-- The seven task types of `TaskType` in `adapters/types.ts`. -/
inductive TaskType where
  | code_generation
  | refactoring
  | debugging
  | review
  | documentation
  | architecture
  | quick_fix
deriving DecidableEq, Repr, Fintype

/-- Declaration order of the `TASK_KEYWORDS` table (and of the `scores`
object): `Object.entries` iterates string keys in insertion order, so this
list fixes both the scoring and the tie-break order of `detectTaskType`. -/
def taskOrder : List TaskType :=
  [.code_generation, .refactoring, .debugging, .review, .documentation,
   .architecture, .quick_fix]

/-- The `TASK_KEYWORDS` table, verbatim. -/
def taskKeywords : TaskType → List String
  | .code_generation =>
      ["generate", "create", "scaffold", "add", "implement", "build",
       "new feature", "new component", "new function", "boilerplate"]
  | .refactoring =>
      ["refactor", "restructure", "reorganize", "clean up", "optimize",
       "improve", "rewrite", "extract", "move", "rearrange"]
  | .debugging =>
      ["debug", "fix", "bug", "error", "issue", "broken", "not working",
       "crash", "fail", "exception"]
  | .review =>
      ["review", "check", "analyze", "audit", "inspect", "examine"]
  | .documentation =>
      ["document", "docstring", "comment", "readme", "explain", "describe"]
  | .architecture =>
      ["architecture", "design", "structure", "pattern", "approach",
       "how should i", "best practice", "system design", "discuss"]
  | .quick_fix =>
      ["quick", "simple", "small", "minor", "tweak", "adjust"]

/-- `COMPLEXITY_KEYWORDS.high`, verbatim. -/
def highKeywords : List String :=
  ["architecture", "design", "system", "multiple", "across", "workspace",
   "entire", "whole", "comprehensive", "complete", "full", "all"]

/-- `COMPLEXITY_KEYWORDS.low`, verbatim. -/
def lowKeywords : List String :=
  ["single", "one", "just this", "only", "quick", "simple", "small",
   "minor", "one file", "this file"]

/-- JavaScript `hay.includes(needle)` on the character-list level:
`needle` occurs contiguously somewhere in `hay`. -/
def includesAux (needle : List Char) : List Char → Bool
  | [] => needle.isEmpty
  | c :: rest => needle.isPrefixOf (c :: rest) || includesAux needle rest

/-- JavaScript `input.includes(kw)`. -/
def strIncludes (input kw : String) : Bool :=
  includesAux kw.toList input.toList

/-- ASCII lower-casing of one character (the effect of JavaScript
`toLowerCase` on the ASCII prompts this analyzer deals with). -/
def lowerChar (c : Char) : Char :=
  if 65 ≤ c.toNat ∧ c.toNat ≤ 90 then Char.ofNat (c.toNat + 32) else c

/-- JavaScript `input.toLowerCase().trim()`: the normalization performed at
the top of `analyzeRequest`. -/
def normalize (input : String) : String :=
  ⟨(((input.toList.map lowerChar).dropWhile Char.isWhitespace).reverse.dropWhile
      Char.isWhitespace).reverse⟩

/-- One iteration of the scoring loop of `detectTaskType`: the number of
keywords of task type `t` contained in the input (the loop adds 1 per
matching keyword). -/
def typeScore (input : String) (t : TaskType) : Nat :=
  (taskKeywords t).countP (fun kw => strIncludes input kw)

/-- `detectTaskType` (analyzer/index.ts:83-115): maximum-score selection with
a strict `score > maxScore` update starting from `(0, "code_generation")`,
iterating in table declaration order. -/
def detectTaskType (input : String) : TaskType :=
  (taskOrder.foldl
    (fun acc t => if typeScore input t > acc.1 then (typeScore input t, t) else acc)
    (0, TaskType.code_generation)).2

/-- The character class of the file-marker regex: word characters
(`A-Z a-z 0-9 _`), dot, slash and dash. -/
def isMarkerChar (c : Char) : Bool :=
  c.isAlphanum || c == '_' || c == '.' || c == '/' || c == '-'

/-- Left-to-right scan reproducing the global match of the file-marker regex
(an `@` followed by one or more marker-class characters): at each `@`
whose successor is in the class, the maximal run of class characters is one
match and scanning resumes after it. The fuel argument (instantiated with the
input length) only discharges termination. -/
def scanMarkersAux : Nat → List Char → List (List Char)
  | 0, _ => []
  | _ + 1, [] => []
  | fuel + 1, c :: rest =>
    if c == '@' then
      let run := rest.takeWhile isMarkerChar
      if run.isEmpty then scanMarkersAux fuel rest
      else run :: scanMarkersAux fuel (rest.dropWhile isMarkerChar)
    else scanMarkersAux fuel rest

/-- The file-marker matches found in `input` (each without its `@`). -/
def fileMarkerRuns (input : String) : List (List Char) :=
  scanMarkersAux input.toList.length input.toList

/-- `extractFileReferences` (analyzer/index.ts:165-168): the matched tokens,
`@` included, or `[]` when `match` returns `null`. -/
def extractFileReferences (input : String) : List String :=
  (fileMarkerRuns input).map (fun run => ⟨'@' :: run⟩)

/-- The number of file-marker matches in the input. -/
def countFileMarkers (input : String) : Nat :=
  (fileMarkerRuns input).length

/-- The `typeComplexity` table of `calculateComplexity`. -/
def typeComplexity : TaskType → Int
  | .architecture => 8
  | .refactoring => 6
  | .debugging => 5
  | .code_generation => 4
  | .review => 5
  | .documentation => 3
  | .quick_fix => 2

/-- Number of high-complexity keywords contained in the input
(the `+1` loop of `calculateComplexity`). -/
def highCount (input : String) : Nat :=
  highKeywords.countP (fun kw => strIncludes input kw)

/-- Number of low-complexity keywords contained in the input
(the `-1` loop of `calculateComplexity`). -/
def lowCount (input : String) : Nat :=
  lowKeywords.countP (fun kw => strIncludes input kw)

/-- `calculateComplexity` (analyzer/index.ts:120-160): base value from the
task type, `+1` per contained high keyword, `-1` per contained low keyword,
then the file-marker adjustment (`+2` for more than 3 matches, `+1` for more
than 1), and finally `Math.max(1, Math.min(10, complexity))`. -/
def calculateComplexity (input : String) (taskType : TaskType) : Int :=
  let base := typeComplexity taskType
  let afterHigh := base + (highCount input : Int)
  let afterLow := afterHigh - (lowCount input : Int)
  let n := countFileMarkers input
  let afterFiles :=
    if n > 3 then afterLow + 2
    else if n > 1 then afterLow + 1
    else afterLow
  max 1 (min 10 afterFiles)

/-- The value returned by `selectTool`. -/
structure ToolChoice where
  tool : String
  confidence : ℚ
  reasoning : String
deriving DecidableEq, Repr

/-- `selectTool` (analyzer/index.ts:173-220): the priority-ordered decision
list, first match wins. The `affectedFiles` argument is accepted but unused,
exactly as in the source. -/
def selectTool (taskType : TaskType) (complexity : Int)
    (_affectedFiles : List String) : ToolChoice :=
  if complexity > 6 ∨ taskType = .architecture then
    { tool := "claude-code", confidence := 9/10,
      reasoning :=
        s!"Complex task ({complexity}/10) requiring advanced reasoning and multi-file coordination" }
  else if taskType = .code_generation ∧ complexity < 6 then
    { tool := "opencode", confidence := 85/100,
      reasoning := "Code generation task best handled by specialized generation tool" }
  else if taskType = .debugging ∨ taskType = .refactoring then
    { tool := "claude-code", confidence := 8/10,
      reasoning := "Task requires analysis and understanding of existing code" }
  else if taskType = .review ∨ taskType = .architecture then
    { tool := "claude-code", confidence := 9/10,
      reasoning := "Task requires deep analysis and reasoning capabilities" }
  else
    { tool := "claude-code", confidence := 5/10,
      reasoning := "Using default tool for general purpose handling" }

/-- The `RequestAnalysis` record produced by the analyzer. -/
structure RequestAnalysis where
  taskType : TaskType
  complexity : Int
  affectedFiles : List String
  suggestedTool : String
  confidence : ℚ
  reasoning : String
deriving DecidableEq, Repr

/-- `analyzeRequest` (analyzer/index.ts:55-78). The optional `context`
argument of the source is never read, so it is omitted here. Note that the
complexity (and its marker count) is computed on the normalized input while
`extractFileReferences` runs on the original input, as in the source. -/
def analyzeRequest (input : String) : RequestAnalysis :=
  let normalizedInput := normalize input
  let taskType := detectTaskType normalizedInput
  let complexity := calculateComplexity normalizedInput taskType
  let affectedFiles := extractFileReferences input
  let result := selectTool taskType complexity affectedFiles
  { taskType := taskType, complexity := complexity,
    affectedFiles := affectedFiles, suggestedTool := result.tool,
    confidence := result.confidence, reasoning := result.reasoning }

/-! Part: Session manager (SessionManager in src/session/index.ts) -/

/-- Message roles. -/
inductive Role where
  | user
  | assistant
  | system
deriving DecidableEq, Repr

/-- A session message; timestamps are modelled as naturals (milliseconds). -/
structure Message where
  role : Role
  content : String
  timestamp : Nat
deriving DecidableEq, Repr

/-- Session status. -/
inductive Status where
  | active
  | completed
  | failed
deriving DecidableEq, Repr

/-- The argument type of `complete`: the TypeScript signature restricts the
status parameter to `"completed" | "failed"`. -/
inductive TerminalStatus where
  | completed
  | failed
deriving DecidableEq, Repr

def TerminalStatus.toStatus : TerminalStatus → Status
  | .completed => .completed
  | .failed => .failed

/-- A session record. `metadata` is an opaque payload the manager stores but
never inspects. -/
structure Session where
  id : String
  tool : String
  messages : List Message
  startTime : Nat
  endTime : Option Nat
  status : Status
  metadata : Option String
deriving DecidableEq, Repr

/-- The manager's `Map<string, Session>`, in insertion order. -/
abbrev Registry := List (String × Session)

/-- `Map.get`: the session stored under a key, if any. -/
def getSession : Registry → String → Option Session
  | [], _ => none
  | e :: rest, id => if e.1 == id then some e.2 else getSession rest id

/-- `Map.set`: overwrite in place when the key exists, append otherwise. -/
def setEntry : Registry → String → Session → Registry
  | [], k, v => [(k, v)]
  | e :: rest, k, v => if e.1 == k then (k, v) :: rest else e :: setEntry rest k v

/-- In-place mutation of the session stored under a key (the effect of
mutating the object returned by `Map.get`). -/
def updateEntry : Registry → String → (Session → Session) → Registry
  | [], _, _ => []
  | e :: rest, k, f =>
    if e.1 == k then (e.1, f e.2) :: rest else e :: updateEntry rest k f

namespace SessionManager

/-- `SessionManager.create`: stores a fresh `active` session under the
supplied id (or the generated id `genId` when none is supplied) and returns
it. `now` is the clock reading, `genId` the id `generateId()` would produce. -/
def create (s : Registry) (tool : String) (id : Option String)
    (metadata : Option String) (now : Nat) (genId : String) :
    Session × Registry :=
  let sessionId := id.getD genId
  let session : Session :=
    { id := sessionId, tool := tool, messages := [], startTime := now,
      endTime := none, status := .active, metadata := metadata }
  (session, setEntry s sessionId session)

/-- `SessionManager.addMessage`: throws (modelled as `Except.error`) when the
id is unknown, otherwise appends a timestamped message. -/
def addMessage (s : Registry) (sessionId : String) (role : Role)
    (content : String) (now : Nat) : Except String Registry :=
  match getSession s sessionId with
  | none => .error s!"Session {sessionId} not found"
  | some _ =>
    .ok (updateEntry s sessionId (fun sess =>
      { sess with
        messages := sess.messages ++ [{ role := role, content := content, timestamp := now }] }))

/-- `SessionManager.complete`: throws when the id is unknown, otherwise sets
the status and stamps the end time — unconditionally, whatever the current
status is. -/
def complete (s : Registry) (sessionId : String) (status : TerminalStatus)
    (now : Nat) : Except String Registry :=
  match getSession s sessionId with
  | none => .error s!"Session {sessionId} not found"
  | some _ =>
    .ok (updateEntry s sessionId (fun sess =>
      { sess with status := status.toStatus, endTime := some now }))

/-- The removal condition of the `cleanup` loop: status is not `active`, an
end time is present, and it is strictly before the cutoff. -/
def shouldRemove (cutoff : Nat) (sess : Session) : Bool :=
  decide (sess.status ≠ .active) &&
    match sess.endTime with
    | some e => decide (e < cutoff)
    | none => false

/-- `SessionManager.cleanup`: deletes every entry satisfying `shouldRemove`
for the cutoff `now − olderThanMs` and returns the number deleted together
with the remaining registry. -/
def cleanup (s : Registry) (now olderThanMs : Nat) : Nat × Registry :=
  let cutoff := now - olderThanMs
  ((s.filter (fun e => shouldRemove cutoff e.2)).length,
   s.filter (fun e => !shouldRemove cutoff e.2))

end SessionManager

/-! Part: Tool adapters (src/remote-vibe/src/adapters/) -/

/-- The request options the adapters read. -/
structure ToolRequestOptions where
  sessionId : Option String
  stream : Bool
deriving DecidableEq, Repr

/-- A task request as the adapters consume it (the directory-context fields
not read by the modelled methods are collapsed into the path). -/
structure ToolRequest where
  prompt : String
  directory : String
  options : ToolRequestOptions
deriving DecidableEq, Repr

/-- A tool result: `error` is `Option` because the source stores
`stderr || undefined`. -/
structure ToolResult where
  success : Bool
  output : String
  error : Option String
  sessionId : String
deriving DecidableEq, Repr

/-- Outcome of `Bun.spawn` plus reading stdout/stderr and awaiting the exit
code inside `BaseAdapter.execute`'s try block: either an exception propagates
(`exn`) or the captured streams and exit code are obtained (`ok`). -/
inductive SpawnOutcome where
  | exn (msg : String)
  | ok (stdout stderr : String) (exitCode : Int)
deriving DecidableEq, Repr

/-- The environment `execute` runs in: the generated session id
(`generateSessionId()`), and what spawning the backend would do. -/
structure ExecEnv where
  genId : String
  spawn : SpawnOutcome
deriving DecidableEq, Repr

/-- JavaScript truthiness test `if (!command)` on a `string | null` value:
`null` and the empty string are both falsy. -/
def commandMissing : Option String → Bool
  | none => true
  | some c => c.isEmpty

namespace BaseAdapter

/-- `BaseAdapter.execute` (base.ts:41-92). `name` is the adapter's `name`,
`command` the value of `getCommand()`. The log write (`saveToLog`) swallows
its own failures and never affects the result, so it does not appear here. -/
def execute (name : String) (command : Option String) (request : ToolRequest)
    (env : ExecEnv) : ToolResult :=
  let sessionId := request.options.sessionId.getD env.genId
  if commandMissing command then
    { success := false, output := "",
      error := some s!"Tool {name} is not configured", sessionId := sessionId }
  else
    match env.spawn with
    | .exn msg =>
        { success := false, output := "", error := some msg, sessionId := sessionId }
    | .ok stdout stderr exitCode =>
        { success := exitCode == 0, output := stdout,
          error := if stderr.isEmpty then none else some stderr,
          sessionId := sessionId }

end BaseAdapter

/-- A stream event as delivered to the sink callback. `complete` carries an
exit code only in the subprocess variant. -/
inductive StreamEvent where
  | routing (tool sessionId : String)
  | output (content : String)
  | error (msg : String)
  | complete (status : String) (exitCode : Option Int)
deriving DecidableEq, Repr

/-- Outcome of the spawn-and-read loop inside `BaseAdapter.stream`'s try
block: either every stdout chunk is read and the exit code obtained
(`finished`), or an exception interrupts the loop after a prefix of chunks
was already delivered (`interrupted`; a spawn failure is
`interrupted [] msg`). -/
inductive StreamOutcome where
  | interrupted (emitted : List String) (msg : String)
  | finished (chunks : List String) (exitCode : Int)
deriving DecidableEq, Repr

/-- The environment a streaming execution runs in. -/
structure StreamEnv where
  genId : String
  outcome : StreamOutcome
deriving DecidableEq, Repr

namespace BaseAdapter

/-- The sequence of events `BaseAdapter.stream` (base.ts:98-155) delivers to
its sink, in delivery order. -/
def streamTrace (name : String) (command : Option String)
    (request : ToolRequest) (env : StreamEnv) : List StreamEvent :=
  let sessionId := request.options.sessionId.getD env.genId
  StreamEvent.routing name sessionId ::
    (if commandMissing command then
      [StreamEvent.error s!"Tool {name} is not configured"]
    else
      match env.outcome with
      | .interrupted emitted msg =>
          emitted.map StreamEvent.output ++ [StreamEvent.error msg]
      | .finished chunks exitCode =>
          chunks.map StreamEvent.output ++
            [StreamEvent.complete (if exitCode == 0 then "success" else "failed")
              (some exitCode)])

end BaseAdapter

/-- Outcome of the `fetch` and body-reading loop of
`OpenCodeAdapter.streamViaApi`: an exception at any point after a prefix of
decoded chunks (`exn`, with a failing `fetch` being `exn [] msg`), a non-2xx
response (`badStatus`), a missing response body (`noBody`), or a complete
body (`done`); `data:`-prefixed body lines are modelled by their decoded
`content` fields. -/
inductive FetchOutcome where
  | exn (emitted : List String) (msg : String)
  | badStatus (status : Int) (statusText : String)
  | noBody
  | done (contents : List String)
deriving DecidableEq, Repr

/-- The environment of an HTTP streaming execution. -/
structure HttpStreamEnv where
  genId : String
  outcome : FetchOutcome
deriving DecidableEq, Repr

namespace OpenCodeAdapter

/-- The event sequence of `OpenCodeAdapter.streamViaApi`
(adapters/opencode.ts). -/
def streamViaApiTrace (endpoint : Option String) (request : ToolRequest)
    (env : HttpStreamEnv) : List StreamEvent :=
  let sessionId := request.options.sessionId.getD env.genId
  StreamEvent.routing "opencode" sessionId ::
    (if commandMissing endpoint then
      [StreamEvent.error "OpenCode endpoint not configured"]
    else
      match env.outcome with
      | .exn emitted msg =>
          emitted.map StreamEvent.output ++ [StreamEvent.error msg]
      | .badStatus status statusText =>
          [StreamEvent.error s!"API error: {status} {statusText}"]
      | .noBody => [StreamEvent.error "No response body"]
      | .done contents =>
          contents.map StreamEvent.output ++ [StreamEvent.complete "success" none])

/-- `OpenCodeAdapter.stream`: dispatches to the API variant when an endpoint
is configured and to the inherited subprocess variant otherwise (in which
case `getCommand()` returns the configured command). -/
def streamTrace (endpoint command : Option String) (request : ToolRequest)
    (henv : HttpStreamEnv) (senv : StreamEnv) : List StreamEvent :=
  if !commandMissing endpoint then
    streamViaApiTrace endpoint request henv
  else
    BaseAdapter.streamTrace "opencode" command request senv

end OpenCodeAdapter

/-- The event sequence of the placeholder `CursorAdapter.stream`
(adapters/cursor.ts:58-67): a single `error` event, no `routing` event. -/
def CursorAdapter.streamTrace (_request : ToolRequest) : List StreamEvent :=
  [StreamEvent.error "Cursor adapter is not yet implemented"]

/-- The event sequence of the placeholder `AiderAdapter.stream`
(adapters/aider.ts): a single `error` event, no `routing` event. -/
def AiderAdapter.streamTrace (_request : ToolRequest) : List StreamEvent :=
  [StreamEvent.error "Aider adapter is not yet implemented"]

/-! Part: The stream-ordering property of the specification -/

def StreamEvent.isOutput : StreamEvent → Bool
  | .output _ => true
  | _ => false

/-- A terminal event is `complete` or `error`. -/
def StreamEvent.isTerminal : StreamEvent → Bool
  | .error _ => true
  | .complete _ _ => true
  | _ => false

/-- Zero or more `output` events followed by exactly one terminal event and
nothing after it. -/
def outputsThenTerminal : List StreamEvent → Bool
  | [] => false
  | e :: rest =>
    (e.isTerminal && rest.isEmpty) || (e.isOutput && outputsThenTerminal rest)

/-- The specification's stream contract as a decidable check on a trace:
exactly one `routing` event first, then zero or more `output` events, then
exactly one terminal (`complete` or `error`) event, and no event after it. -/
def isWellFormedTrace : List StreamEvent → Bool
  | StreamEvent.routing _ _ :: rest => outputsThenTerminal rest
  | _ => false

/-! Part: Spec-side definitions

These two definitions are written from the specification's words, to be
compared against the source-derived definitions above. -/

/-- Modelled from the spec: the file-marker complexity adjustment, as a
function of the number of marker matches — no adjustment for at most one,
`+1` for two or three, `+2` for more than three. -/
def markerAdjust (n : Nat) : Int :=
  if n > 3 then 2 else if n > 1 then 1 else 0

/-- The number of distinct file markers a prompt references (the spec's
"2–3 distinct file markers"). -/
def distinctFileMarkers (input : String) : Nat :=
  (extractFileReferences input).dedup.length

/-- The maximum task-type score of a prompt. -/
def maxTypeScore (input : String) : Nat :=
  taskOrder.foldl (fun m t => max m (typeScore input t)) 0

/-- Modelled from the spec (as amended for claim C5): the first task type, in
table declaration order, whose score reaches the maximum score; defaulting to
`code_generation`, which is also the first entry of the table. -/
def firstTypeReachingMax (input : String) : TaskType :=
  (taskOrder.find? (fun t => typeScore input t == maxTypeScore input)).getD
    .code_generation

/-! Concrete states and inputs used by witnesses and counterexamples. -/

/-- The registry after `create([], "claude-code", "s1")`. -/
def c3Reg0 : Registry :=
  (SessionManager.create [] "claude-code" (some "s1") none 0 "gen").2

/-- The registry after a first `complete(s1, completed)`. -/
def c3Reg1 : Except String Registry :=
  SessionManager.complete c3Reg0 "s1" .completed 1

/-- The registry after a second `complete(s1, failed)` on the same session. -/
def c3Reg2 : Except String Registry :=
  c3Reg1.bind (fun s => SessionManager.complete s "s1" .failed 2)

/-- The status stored under an id after a possibly-failing operation. -/
def statusAt (r : Except String Registry) (id : String) : Option Status :=
  match r with
  | .error _ => none
  | .ok s => (getSession s id).map (·.status)

/-- A pre-existing, already-completed session used by the C10 witness. -/
def c10Old : Session :=
  { id := "s1", tool := "claude-code",
    messages := [⟨.user, "old prompt", 5⟩], startTime := 5,
    endTime := some 9, status := .completed, metadata := none }

/-- A concrete request with a pre-assigned session id, used by witnesses and
counterexamples. -/
def req0 : ToolRequest :=
  { prompt := "p", directory := "/w",
    options := { sessionId := some "sid", stream := false } }

/-! Part: Helper lemmas -/

lemma selectTool_confidence_bounds (t : TaskType) (c : Int) (a : List String) :
    0 ≤ (selectTool t c a).confidence ∧ (selectTool t c a).confidence ≤ 1 := by
  unfold selectTool
  split_ifs <;> constructor <;> norm_num

lemma calculateComplexity_bounds (input : String) (t : TaskType) :
    1 ≤ calculateComplexity input t ∧ calculateComplexity input t ≤ 10 := by
  simp only [calculateComplexity]
  exact ⟨le_max_left _ _, max_le (by norm_num) (min_le_left _ _)⟩

/-- If every task type scores zero, the argmax fold of `detectTaskType` never
updates its accumulator. -/
lemma foldArgmax_all_zero (f : TaskType → Nat) (l : List TaskType) (d : TaskType)
    (h : ∀ t ∈ l, f t = 0) :
    l.foldl (fun acc t => if f t > acc.1 then (f t, t) else acc) (0, d) = (0, d) := by
  induction l with
  | nil => rfl
  | cons t rest ih =>
    have ht : f t = 0 := h t (by simp)
    rw [List.foldl_cons]
    have hstep : (if f t > (0, d).1 then (f t, t) else (0, d)) = (0, d) := by
      simp [ht]
    rw [hstep]
    exact ih fun u hu => h u (by simp [hu])

/-! Part: Claim C4 -/

/-- Claim C4 (confirmed): For every input prompt, `analyzeRequest` returns an
analysis whose complexity is an integer with `1 ≤ complexity ≤ 10` and whose
confidence satisfies `0 ≤ confidence ≤ 1`. -/
theorem C4_analyzeRequest_bounds (input : String) :
    1 ≤ (analyzeRequest input).complexity ∧
    (analyzeRequest input).complexity ≤ 10 ∧
    0 ≤ (analyzeRequest input).confidence ∧
    (analyzeRequest input).confidence ≤ 1 := by
  have hc : (analyzeRequest input).complexity =
      calculateComplexity (normalize input) (detectTaskType (normalize input)) := rfl
  have hq : (analyzeRequest input).confidence =
      (selectTool (detectTaskType (normalize input))
        (calculateComplexity (normalize input) (detectTaskType (normalize input)))
        (extractFileReferences input)).confidence := rfl
  obtain ⟨h1, h2⟩ := calculateComplexity_bounds (normalize input) (detectTaskType (normalize input))
  obtain ⟨h3, h4⟩ := selectTool_confidence_bounds (detectTaskType (normalize input))
    (calculateComplexity (normalize input) (detectTaskType (normalize input)))
    (extractFileReferences input)
  exact ⟨hc ▸ h1, hc ▸ h2, hq ▸ h3, hq ▸ h4⟩

/-! Part: Claim C6 -/

/-- Claim C6 counterexample: On the prompt "quick fix typo in readme" the
analyzer detects `debugging` (the keyword "fix" scores the debugging type,
which precedes `quick_fix` in table declaration order), not `quick-fix` as
the claim states. -/
theorem C6_counterexample :
    (analyzeRequest "quick fix typo in readme").taskType = .debugging ∧
    (analyzeRequest "quick fix typo in readme").taskType ≠ .quick_fix := by
  constructor
  · decide
  · decide

/-- Claim C6 (corrected): For the prompt "quick fix typo in readme",
`analyzeRequest` returns task type `debugging` ("fix" scores debugging,
"quick" scores quick-fix, "readme" scores documentation, and debugging is
first in declaration order among the three), complexity 4 (debugging base 5,
−1 for the low-complexity keyword "quick"), and the decision list's
debugging-or-refactoring branch: `claude-code` with confidence 0.8. -/
theorem C6_quick_fix_prompt :
    (analyzeRequest "quick fix typo in readme").taskType = .debugging ∧
    (analyzeRequest "quick fix typo in readme").complexity = 4 ∧
    (analyzeRequest "quick fix typo in readme").suggestedTool = "claude-code" ∧
    (analyzeRequest "quick fix typo in readme").confidence = 8/10 := by
  refine ⟨by decide, by decide, by decide, rfl⟩

/-! Part: Claim C7 -/

/-- Claim C7 counterexample: The prompt `"@x.a @x.a"` references exactly one
distinct file marker, yet its complexity is the task-type base plus 1: the
source counts regex-match occurrences (here 2), not distinct markers, so the
claim's "no adjustment for zero or one [distinct] marker" fails. -/
theorem C7_counterexample :
    distinctFileMarkers "@x.a @x.a" = 1 ∧
    calculateComplexity "@x.a @x.a" .quick_fix = typeComplexity .quick_fix + 1 := by
  constructor
  · decide
  · decide

/-- Claim C7 (corrected): The file-marker complexity contribution is a function
of the number of marker-match occurrences (not distinct markers): 0 for at
most one match, +1 for two or three, +2 for more than three, added before
clamping to `[1,10]`; prompts consisting of exactly 0, 1, 2, 4 markers and no
other keywords receive adjustments 0, 0, +1, +2 over the task-type base. -/
theorem C7_marker_adjustment :
    (∀ (input : String) (t : TaskType),
      calculateComplexity input t =
        max 1 (min 10 (typeComplexity t + (highCount input : Int) -
          (lowCount input : Int) + markerAdjust (countFileMarkers input)))) ∧
    markerAdjust 0 = 0 ∧ markerAdjust 1 = 0 ∧ markerAdjust 2 = 1 ∧
    markerAdjust 3 = 1 ∧ markerAdjust 4 = 2 ∧
    (∀ t : TaskType,
      calculateComplexity "" t = max 1 (min 10 (typeComplexity t)) ∧
      calculateComplexity "@a" t = max 1 (min 10 (typeComplexity t)) ∧
      calculateComplexity "@a @b" t = max 1 (min 10 (typeComplexity t + 1)) ∧
      calculateComplexity "@a @b @c @d" t = max 1 (min 10 (typeComplexity t + 2))) := by
  refine ⟨?_, rfl, rfl, rfl, rfl, rfl, by decide⟩
  intro input t
  simp only [calculateComplexity, markerAdjust]
  split_ifs
  · rfl
  · rfl
  · simp only [add_zero]

/-! Part: Claim C8 -/

/-- Claim C8 counterexample: On the empty prompt, `analyzeRequest` does not
degrade to the 0.5-confidence fallback: the default task type is
`code_generation` with base complexity 4, which takes the generation branch —
`opencode` with confidence 0.85. -/
theorem C8_counterexample :
    (analyzeRequest "").suggestedTool = "opencode" ∧
    (analyzeRequest "").confidence = 85/100 ∧
    (analyzeRequest "").confidence ≠ 5/10 := by
  refine ⟨by decide, rfl, ?_⟩
  have h : (analyzeRequest "").confidence = 85/100 := rfl
  rw [h]
  norm_num

/-- Claim C8 (corrected): `analyzeRequest` is a total pure function (it is a
Lean function, so totality and determinism hold by construction), and on
unknown input — one whose normalized form matches no task keyword, no
complexity keyword, and no file marker, the empty prompt included — it
returns the default task type `code_generation` with complexity 4, routed to
`opencode` with confidence 0.85 (the generation branch), not the
0.5-confidence fallback. -/
theorem C8_unknown_input_default (input : String)
    (h0 : ∀ t : TaskType, typeScore (normalize input) t = 0)
    (hh : highCount (normalize input) = 0)
    (hl : lowCount (normalize input) = 0)
    (hm : countFileMarkers (normalize input) = 0) :
    (analyzeRequest input).taskType = .code_generation ∧
    (analyzeRequest input).complexity = 4 ∧
    (analyzeRequest input).suggestedTool = "opencode" ∧
    (analyzeRequest input).confidence = 85/100 := by
  have hdet : detectTaskType (normalize input) = .code_generation := by
    unfold detectTaskType
    rw [foldArgmax_all_zero (typeScore (normalize input)) taskOrder
      .code_generation (fun t _ => h0 t)]
  have hcomp : calculateComplexity (normalize input) TaskType.code_generation = 4 := by
    simp only [calculateComplexity, hh, hl, hm]
    decide
  have hsel : ∀ a : List String,
      selectTool .code_generation 4 a =
        { tool := "opencode", confidence := 85/100,
          reasoning := "Code generation task best handled by specialized generation tool" } :=
    fun _ => rfl
  have h1 : (analyzeRequest input).taskType = detectTaskType (normalize input) := rfl
  have h2 : (analyzeRequest input).complexity =
      calculateComplexity (normalize input) (detectTaskType (normalize input)) := rfl
  have h3 : (analyzeRequest input).suggestedTool =
      (selectTool (detectTaskType (normalize input))
        (calculateComplexity (normalize input) (detectTaskType (normalize input)))
        (extractFileReferences input)).tool := rfl
  have h4 : (analyzeRequest input).confidence =
      (selectTool (detectTaskType (normalize input))
        (calculateComplexity (normalize input) (detectTaskType (normalize input)))
        (extractFileReferences input)).confidence := rfl
  refine ⟨h1.trans hdet, ?_, ?_, ?_⟩
  · rw [h2, hdet, hcomp]
  · rw [h3, hdet, hcomp, hsel]
  · rw [h4, hdet, hcomp, hsel]

/-! Claim C5: argmax-fold analysis. -/

section ArgmaxFold

variable {α : Type*} (f : α → Nat)

lemma le_foldMax (l : List α) : ∀ n : Nat,
    n ≤ l.foldl (fun m t => max m (f t)) n := by
  induction l with
  | nil => intro n; simp
  | cons t rest ih =>
    intro n
    rw [List.foldl_cons]
    exact le_trans (le_max_left n (f t)) (ih (max n (f t)))

lemma mem_le_foldMax (l : List α) : ∀ (n : Nat) (t : α), t ∈ l →
    f t ≤ l.foldl (fun m u => max m (f u)) n := by
  induction l with
  | nil => simp
  | cons u rest ih =>
    intro n t ht
    rw [List.foldl_cons]
    rcases List.mem_cons.mp ht with h | h
    · subst h
      exact le_trans (le_max_right n (f t)) (le_foldMax f rest _)
    · exact ih _ t h

lemma foldMax_attained (l : List α) : ∀ n : Nat,
    l.foldl (fun m u => max m (f u)) n = n ∨
      ∃ t ∈ l, f t = l.foldl (fun m u => max m (f u)) n := by
  induction l with
  | nil => intro n; left; rfl
  | cons u rest ih =>
    intro n
    rw [List.foldl_cons]
    rcases ih (max n (f u)) with h | h
    · rcases max_choice n (f u) with hm | hm
      · left; rw [h, hm]
      · right; exact ⟨u, List.mem_cons_self u rest, by rw [h, hm]⟩
    · obtain ⟨t, ht, hft⟩ := h
      exact Or.inr ⟨t, List.mem_cons_of_mem _ ht, hft⟩

lemma find?_isSome_of_exists (p : α → Bool) (l : List α)
    (h : ∃ x ∈ l, p x = true) : ∃ v, l.find? p = some v := by
  induction l with
  | nil => simp at h
  | cons a as ih =>
    by_cases hp : p a = true
    · exact ⟨a, List.find?_cons_of_pos _ hp⟩
    · rw [List.find?_cons_of_neg _ (by simpa using hp)]
      obtain ⟨x, hx, hpx⟩ := h
      rcases List.mem_cons.mp hx with rfl | hx'
      · exact absurd hpx hp
      · exact ih ⟨x, hx', hpx⟩

/-- The second component of the strict-`>` argmax fold is the first list
element attaining the running maximum, or the default when nothing exceeds
the initial bound. -/
lemma foldArgmax_snd (l : List α) : ∀ (n : Nat) (d : α),
    (l.foldl (fun acc t => if f t > acc.1 then (f t, t) else acc) (n, d)).2 =
      if l.foldl (fun m t => max m (f t)) n = n then d
      else (l.find? (fun t => f t == l.foldl (fun m u => max m (f u)) n)).getD d := by
  induction l with
  | nil => intro n d; simp
  | cons t rest ih =>
    intro n d
    rw [List.foldl_cons, List.foldl_cons]
    by_cases h : f t > n
    · have hmax : max n (f t) = f t := max_eq_right (le_of_lt h)
      rw [show (if f t > (n, d).1 then (f t, t) else (n, d)) = (f t, t) from
        if_pos h, hmax, ih (f t) t]
      have hMt : f t ≤ rest.foldl (fun m u => max m (f u)) (f t) :=
        le_foldMax f rest (f t)
      have hMn : rest.foldl (fun m u => max m (f u)) (f t) ≠ n :=
        Nat.ne_of_gt (lt_of_lt_of_le h hMt)
      rw [if_neg hMn]
      by_cases hEq : rest.foldl (fun m u => max m (f u)) (f t) = f t
      · rw [if_pos hEq,
          List.find?_cons_of_pos _ (by simpa using hEq.symm)]
        rfl
      · rw [if_neg hEq,
          List.find?_cons_of_neg _ (by simpa using fun hc => hEq hc.symm)]
        rcases foldMax_attained f rest (f t) with hc | hc
        · exact absurd hc hEq
        · obtain ⟨u, hu, hfu⟩ := hc
          obtain ⟨v, hv⟩ := find?_isSome_of_exists
            (fun u => f u == rest.foldl (fun m w => max m (f w)) (f t)) rest
            ⟨u, hu, by simpa using hfu⟩
          rw [hv]
          rfl
    · have hle : f t ≤ n := not_lt.mp h
      have hmax : max n (f t) = n := max_eq_left hle
      rw [show (if f t > (n, d).1 then (f t, t) else (n, d)) = (n, d) from
        if_neg h, hmax, ih n d]
      by_cases hM : rest.foldl (fun m u => max m (f u)) n = n
      · rw [if_pos hM, if_pos hM]
      · rw [if_neg hM, if_neg hM]
        have hgt : n < rest.foldl (fun m u => max m (f u)) n :=
          lt_of_le_of_ne (le_foldMax f rest n) (fun hc => hM hc.symm)
        have hne : f t ≠ rest.foldl (fun m u => max m (f u)) n :=
          Nat.ne_of_lt (lt_of_le_of_lt hle hgt)
        rw [List.find?_cons_of_neg _ (by simpa using hne)]

end ArgmaxFold

/-- Claim C5 counterexample: The prompt "generate design" scores 1 for
`code_generation` (keyword "generate") and 1 for `architecture` (keyword
"design"), a tie at the maximum — and the winner is `code_generation`, not
`architecture`: architecture keywords are not checked before the other
types. -/
theorem C5_counterexample :
    typeScore "generate design" .code_generation = 1 ∧
    typeScore "generate design" .architecture = 1 ∧
    maxTypeScore "generate design" = 1 ∧
    detectTaskType "generate design" = .code_generation := by
  refine ⟨by decide, by decide, by decide, by decide⟩

/-- Claim C5 (corrected): Task-type detection scores each task type by counting
substring matches against its keyword table, and the winner is the first type
reaching the maximum score in table declaration order — but that order is
`code_generation, refactoring, debugging, review, documentation,
architecture, quick_fix`: architecture keywords are checked sixth, not before
the other types. -/
theorem C5_first_type_reaching_max (input : String) :
    detectTaskType input = firstTypeReachingMax input := by
  unfold detectTaskType firstTypeReachingMax maxTypeScore
  rw [foldArgmax_snd (typeScore input) taskOrder 0 .code_generation]
  by_cases h : taskOrder.foldl (fun m t => max m (typeScore input t)) 0 = 0
  · rw [if_pos h]
    have hcg : typeScore input .code_generation = 0 :=
      Nat.le_zero.mp (h ▸ mem_le_foldMax (typeScore input) taskOrder 0
        .code_generation (by decide))
    have hfind :
        taskOrder.find?
          (fun t => typeScore input t ==
            taskOrder.foldl (fun m u => max m (typeScore input u)) 0) =
          some .code_generation := by
      have : (fun t => typeScore input t ==
            taskOrder.foldl (fun m u => max m (typeScore input u)) 0)
            .code_generation = true := by
        rw [h]
        simpa using hcg
      exact List.find?_cons_of_pos _ this
    rw [hfind]
    rfl
  · rw [if_neg h]

/-- Witness for C8 at the empty prompt. -/
theorem C8_unknown_input_default_witness :
    (analyzeRequest "").taskType = .code_generation ∧
    (analyzeRequest "").complexity = 4 ∧
    (analyzeRequest "").suggestedTool = "opencode" ∧
    (analyzeRequest "").confidence = 85/100 :=
  C8_unknown_input_default "" (by decide) (by decide) (by decide) (by decide)

/-! Part: Session-manager lemmas -/

lemma getSession_setEntry (k : String) (v : Session) :
    ∀ s : Registry, getSession (setEntry s k v) k = some v := by
  intro s
  induction s with
  | nil => simp [setEntry, getSession]
  | cons e rest ih =>
    by_cases h : (e.1 == k) = true
    · simp [setEntry, h, getSession]
    · simp only [setEntry, h, Bool.false_eq_true, if_false, cond_false]
      simpa [getSession, h] using ih

lemma getSession_updateEntry_self (k : String) (f : Session → Session) :
    ∀ (s : Registry) (sess : Session), getSession s k = some sess →
      getSession (updateEntry s k f) k = some (f sess) := by
  intro s
  induction s with
  | nil => intro sess h; simp [getSession] at h
  | cons e rest ih =>
    intro sess h
    by_cases he : (e.1 == k) = true
    · have hv : e.2 = sess := by simpa [getSession, he] using h
      simp [updateEntry, he, getSession, hv]
    · have h' : getSession rest k = some sess := by simpa [getSession, he] using h
      simpa [updateEntry, he, getSession] using ih sess h'

lemma addMessage_ok (s : Registry) (k : String) (role : Role) (content : String)
    (now : Nat) (sess : Session) (h : getSession s k = some sess) :
    SessionManager.addMessage s k role content now =
      .ok (updateEntry s k (fun x =>
        { x with messages := x.messages ++ [⟨role, content, now⟩] })) := by
  simp [SessionManager.addMessage, h]

lemma complete_ok (s : Registry) (k : String) (st : TerminalStatus) (now : Nat)
    (sess : Session) (h : getSession s k = some sess) :
    SessionManager.complete s k st now =
      .ok (updateEntry s k (fun x =>
        { x with status := st.toStatus, endTime := some now })) := by
  simp [SessionManager.complete, h]

/-- Running a list of `addMessage` calls on a stored session appends exactly
those messages, in call order, and touches nothing else of the session. -/
lemma addMessages_fold (k : String) :
    ∀ (calls : List (Role × String × Nat)) (s : Registry) (sess : Session),
      getSession s k = some sess →
      ∃ s' : Registry,
        calls.foldlM (fun acc c =>
          SessionManager.addMessage acc k c.1 c.2.1 c.2.2) s = .ok s' ∧
        getSession s' k = some { sess with
          messages := sess.messages ++ calls.map (fun c => ⟨c.1, c.2.1, c.2.2⟩) } := by
  intro calls
  induction calls with
  | nil =>
    intro s sess h
    exact ⟨s, rfl, by simpa using h⟩
  | cons c cs ih =>
    intro s sess h
    have h1 : getSession (updateEntry s k (fun x =>
          { x with messages := x.messages ++ [⟨c.1, c.2.1, c.2.2⟩] })) k =
        some { sess with messages := sess.messages ++ [⟨c.1, c.2.1, c.2.2⟩] } :=
      getSession_updateEntry_self k _ s sess h
    obtain ⟨s', hs', hget⟩ := ih _ _ h1
    refine ⟨s', ?_, ?_⟩
    · rw [List.foldlM_cons, addMessage_ok s k c.1 c.2.1 c.2.2 sess h]
      exact hs'
    · simpa [List.append_assoc] using hget

/-! Claim C3. -/

/-- Claim C3 counterexample. `complete` never checks the current status: after
`create; complete(completed)` the session is terminal, yet a further
`complete(failed)` succeeds and overwrites the terminal status — the
transition `completed → failed` happens, so terminal status is not
preserved by subsequent operations. -/
theorem C3_counterexample :
    statusAt c3Reg1 "s1" = some .completed ∧
    statusAt c3Reg2 "s1" = some .failed := by
  refine ⟨by decide, by decide⟩

/-- Claim C3 (corrected): For every stored session and every sequence of
`addMessage` calls followed by one `complete`, all calls succeed, the stored
message order equals the call order, and the final status is exactly the
terminal value passed to `complete` (which the signature restricts to
`completed` or `failed`) with the end time stamped. However, terminality is
not enforced: `complete` overwrites status and end time unconditionally, so
a later `complete` can still change a terminal status (see the
counterexample). -/
theorem C3_message_order_and_completion (s : Registry) (id : String)
    (sess : Session) (calls : List (Role × String × Nat))
    (st : TerminalStatus) (t : Nat) (h : getSession s id = some sess) :
    ∃ s₁ s₂ : Registry,
      calls.foldlM (fun acc c =>
        SessionManager.addMessage acc id c.1 c.2.1 c.2.2) s = .ok s₁ ∧
      SessionManager.complete s₁ id st t = .ok s₂ ∧
      getSession s₂ id = some { sess with
        messages := sess.messages ++ calls.map (fun c => ⟨c.1, c.2.1, c.2.2⟩),
        status := st.toStatus, endTime := some t } := by
  obtain ⟨s₁, hfold, hget₁⟩ := addMessages_fold id calls s sess h
  refine ⟨s₁, updateEntry s₁ id (fun x =>
    { x with status := st.toStatus, endTime := some t }), hfold, ?_, ?_⟩
  · exact complete_ok s₁ id st t _ hget₁
  · simpa using getSession_updateEntry_self id _ s₁ _ hget₁

/-- Witness for C3 on a concrete two-message session. -/
theorem C3_message_order_and_completion_witness :
    ∃ s₁ s₂ : Registry,
      ([((Role.user : Role), ("hi", (1 : Nat))),
        ((Role.assistant : Role), ("ok", (2 : Nat)))].foldlM (fun acc c =>
          SessionManager.addMessage acc "s1" c.1 c.2.1 c.2.2) c3Reg0) = .ok s₁ ∧
      SessionManager.complete s₁ "s1" .completed 3 = .ok s₂ ∧
      getSession s₂ "s1" = some
        { id := "s1", tool := "claude-code",
          messages := [⟨.user, "hi", 1⟩, ⟨.assistant, "ok", 2⟩],
          startTime := 0, endTime := some 3, status := .completed,
          metadata := none } :=
  C3_message_order_and_completion c3Reg0 "s1"
    { id := "s1", tool := "claude-code", messages := [], startTime := 0,
      endTime := none, status := .active, metadata := none }
    [(.user, ("hi", 1)), (.assistant, ("ok", 2))] .completed 3 (by decide)

/-! Part: Claim C9 -/

lemma length_filter_add_length_filter_not {α : Type*} (p : α → Bool)
    (l : List α) :
    (l.filter p).length + (l.filter (fun a => !p a)).length = l.length := by
  induction l with
  | nil => rfl
  | cons a as ih =>
    by_cases h : p a = true <;> simp [List.filter_cons, h] <;> omega

lemma filter_of_filter_not {α : Type*} (p : α → Bool) (l : List α) :
    (l.filter (fun a => !p a)).filter p = [] := by
  induction l with
  | nil => rfl
  | cons a as ih =>
    by_cases h : p a = true <;> simp [List.filter_cons, h, ih]

lemma filter_not_idem {α : Type*} (p : α → Bool) (l : List α) :
    (l.filter (fun a => !p a)).filter (fun a => !p a) =
      l.filter (fun a => !p a) := by
  induction l with
  | nil => rfl
  | cons a as ih =>
    by_cases h : p a = true <;> simp [List.filter_cons, h, ih]

/-- The removal test, phrased as the specification does: terminal status and
an end time strictly older than the cutoff. -/
lemma shouldRemove_iff (cutoff : Nat) (sess : Session) :
    SessionManager.shouldRemove cutoff sess = true ↔
      (sess.status ≠ .active ∧ ∃ e, sess.endTime = some e ∧ e < cutoff) := by
  unfold SessionManager.shouldRemove
  rcases hE : sess.endTime with _ | e
  · simp [hE]
  · simp [hE]

/-- Claim C9 (confirmed): `cleanup` keeps exactly the sessions that are active
or whose end time is not strictly older than `now − maxAgeMs`, returns the
number of sessions removed (removed + remaining = total), and is idempotent:
re-running `cleanup` with the same cutoff on the resulting registry removes
zero sessions and leaves the registry unchanged. -/
theorem C9_cleanup_exact_count_idempotent (s : Registry) (now olderThanMs : Nat) :
    (∀ id sess, (id, sess) ∈ (SessionManager.cleanup s now olderThanMs).2 ↔
      ((id, sess) ∈ s ∧
        ¬(sess.status ≠ .active ∧
          ∃ e, sess.endTime = some e ∧ e < now - olderThanMs))) ∧
    (SessionManager.cleanup s now olderThanMs).1 +
      (SessionManager.cleanup s now olderThanMs).2.length = s.length ∧
    SessionManager.cleanup (SessionManager.cleanup s now olderThanMs).2 now
        olderThanMs =
      (0, (SessionManager.cleanup s now olderThanMs).2) := by
  refine ⟨?_, ?_, ?_⟩
  · intro id sess
    have h := shouldRemove_iff (now - olderThanMs) sess
    simp only [SessionManager.cleanup, List.mem_filter, ← h,
      Bool.not_eq_true', Bool.not_eq_true]
  · simpa [SessionManager.cleanup] using
      length_filter_add_length_filter_not
        (fun e => SessionManager.shouldRemove (now - olderThanMs) e.2) s
  · simp only [SessionManager.cleanup]
    rw [filter_of_filter_not, filter_not_idem]
    simp

/-! Part: Claim C10 -/

/-- Claim C10 (confirmed): When `create` is given an id that already names a
stored session, it does not fail: it returns a fresh `active` session with an
empty message list and the new start time, and stores it under that id, so
`get(id)` now yields the fresh session and the previously stored session is
no longer retrievable — id uniqueness is not enforced. -/
theorem C10_create_silently_replaces (s : Registry) (tool id : String)
    (metadata : Option String) (now : Nat) (genId : String) (old : Session)
    (h : getSession s id = some old) :
    (SessionManager.create s tool (some id) metadata now genId).1 =
      { id := id, tool := tool, messages := [], startTime := now,
        endTime := none, status := .active, metadata := metadata } ∧
    getSession (SessionManager.create s tool (some id) metadata now genId).2 id =
      some { id := id, tool := tool, messages := [], startTime := now,
             endTime := none, status := .active, metadata := metadata } := by
  refine ⟨rfl, ?_⟩
  exact getSession_setEntry id _ s

/-- Witness for C10: creating over the id of a completed session yields a
fresh active session under that id. -/
theorem C10_create_silently_replaces_witness :
    (SessionManager.create [("s1", c10Old)] "opencode" (some "s1") none 10
        "gen").1 =
      { id := "s1", tool := "opencode", messages := [], startTime := 10,
        endTime := none, status := .active, metadata := none } ∧
    getSession (SessionManager.create [("s1", c10Old)] "opencode" (some "s1")
        none 10 "gen").2 "s1" =
      some { id := "s1", tool := "opencode", messages := [], startTime := 10,
             endTime := none, status := .active, metadata := none } :=
  C10_create_silently_replaces [("s1", c10Old)] "opencode" "s1" none 10 "gen"
    c10Old (by decide)

/-! Claim C1. -/

/-- Claim C1 counterexample. A non-zero exit with empty captured stderr is a
failure path whose result carries no error message at all: the source stores
`stderr || undefined`, so `error` is absent. The claim's "every failure path
… with an error message" fails here (the `success:false` part does hold). -/
theorem C1_counterexample :
    (BaseAdapter.execute "claude-code" (some "claude") req0
      { genId := "g", spawn := .ok "" "" 1 }).success = false ∧
    (BaseAdapter.execute "claude-code" (some "claude") req0
      { genId := "g", spawn := .ok "" "" 1 }).error = none := by
  refine ⟨by decide, by decide⟩

/-- Claim C1 (corrected): `execute` never raises — every failure path returns
an ordinary result with `success:false`: the not-configured path returns
exactly `{success:false, output:"", error:"Tool <name> is not configured"}`
without consulting the backend, an exception while invoking the backend
yields `success:false` with the exception message as error, and a non-zero
exit yields `success:false` with the captured stderr as error **when stderr
is non-empty; with empty stderr the error field is absent**. `success` is
true exactly when a command is configured and the process exits 0. -/
theorem C1_execute_never_raises (name : String) (command : Option String)
    (request : ToolRequest) (env : ExecEnv) :
    (commandMissing command = true →
      BaseAdapter.execute name command request env =
        { success := false, output := "",
          error := some s!"Tool {name} is not configured",
          sessionId := request.options.sessionId.getD env.genId }) ∧
    ((BaseAdapter.execute name command request env).success = true ↔
      (commandMissing command = false ∧
        ∃ out err, env.spawn = .ok out err 0)) ∧
    (∀ msg, commandMissing command = false → env.spawn = .exn msg →
      (BaseAdapter.execute name command request env).success = false ∧
      (BaseAdapter.execute name command request env).error = some msg) ∧
    (∀ out err code, commandMissing command = false →
      env.spawn = .ok out err code →
      (BaseAdapter.execute name command request env).success = (code == 0) ∧
      (BaseAdapter.execute name command request env).output = out ∧
      (BaseAdapter.execute name command request env).error =
        (if err.isEmpty then none else some err)) := by
  refine ⟨?_, ?_, ?_, ?_⟩
  · intro h
    simp [BaseAdapter.execute, h]
  · by_cases h : commandMissing command = true
    · simp [BaseAdapter.execute, h]
    · rcases hsp : env.spawn with msg | ⟨out, err, code⟩ <;>
        simp [BaseAdapter.execute, h, hsp, beq_iff_eq]
  · intro msg h hsp
    simp [BaseAdapter.execute, h, hsp]
  · intro out err code h hsp
    simp [BaseAdapter.execute, h, hsp]

/-- Witness for C1: the not-configured path (Cursor's `getCommand()` is
`null`) and the exception path at concrete inputs. -/
theorem C1_execute_never_raises_witness :
    BaseAdapter.execute "cursor" none req0 { genId := "g", spawn := .exn "boom" } =
      { success := false, output := "",
        error := some "Tool cursor is not configured", sessionId := "sid" } ∧
    (BaseAdapter.execute "claude-code" (some "claude") req0
      { genId := "g", spawn := .exn "spawn failed" }).success = false ∧
    (BaseAdapter.execute "claude-code" (some "claude") req0
      { genId := "g", spawn := .exn "spawn failed" }).error =
        some "spawn failed" := by
  refine ⟨?_, ?_, ?_⟩
  · have h := (C1_execute_never_raises "cursor" none req0
      { genId := "g", spawn := .exn "boom" }).1 (by decide)
    rw [h]
    decide
  · exact ((C1_execute_never_raises "claude-code" (some "claude") req0
      { genId := "g", spawn := .exn "spawn failed" }).2.2.1 "spawn failed"
      (by decide) rfl).1
  · exact ((C1_execute_never_raises "claude-code" (some "claude") req0
      { genId := "g", spawn := .exn "spawn failed" }).2.2.1 "spawn failed"
      (by decide) rfl).2

/-! Part: Claim C2 -/

lemma isWellFormedTrace_routing_cons (tool sid : String)
    (rest : List StreamEvent) :
    isWellFormedTrace (StreamEvent.routing tool sid :: rest) =
      outputsThenTerminal rest := rfl

lemma outputsThenTerminal_append (l : List String) (t : StreamEvent)
    (h : t.isTerminal = true) :
    outputsThenTerminal (l.map StreamEvent.output ++ [t]) = true := by
  induction l with
  | nil => simp [outputsThenTerminal, h]
  | cons c cs ih =>
    simp [outputsThenTerminal, StreamEvent.isOutput, StreamEvent.isTerminal, ih]

lemma base_streamTrace_wf (name : String) (command : Option String)
    (request : ToolRequest) (env : StreamEnv) :
    isWellFormedTrace (BaseAdapter.streamTrace name command request env) = true := by
  simp only [BaseAdapter.streamTrace, isWellFormedTrace_routing_cons]
  by_cases h : commandMissing command = true
  · simp [h, outputsThenTerminal, StreamEvent.isTerminal]
  · rcases henv : env.outcome with ⟨em, msg⟩ | ⟨chunks, code⟩ <;>
      simp only [h, henv, Bool.false_eq_true, if_false] <;>
      exact outputsThenTerminal_append _ _ rfl

lemma opencode_streamViaApi_wf (endpoint : Option String)
    (request : ToolRequest) (env : HttpStreamEnv) :
    isWellFormedTrace (OpenCodeAdapter.streamViaApiTrace endpoint request env) =
      true := by
  simp only [OpenCodeAdapter.streamViaApiTrace, isWellFormedTrace_routing_cons]
  by_cases h : commandMissing endpoint = true
  · simp [h, outputsThenTerminal, StreamEvent.isTerminal]
  · rcases henv : env.outcome with ⟨em, msg⟩ | ⟨st, stx⟩ | _ | ⟨contents⟩ <;>
      simp only [h, henv, Bool.false_eq_true, if_false] <;>
      first
        | exact outputsThenTerminal_append _ _ rfl
        | simp [outputsThenTerminal, StreamEvent.isTerminal]

/-- Claim C2 counterexample: `CursorAdapter.stream` overrides the base
implementation and delivers a single `error` event with no preceding
`routing` event, so its trace violates the claimed ordering (the same holds
for `AiderAdapter.stream`). -/
theorem C2_counterexample :
    CursorAdapter.streamTrace req0 =
      [StreamEvent.error "Cursor adapter is not yet implemented"] ∧
    isWellFormedTrace (CursorAdapter.streamTrace req0) = false := by
  refine ⟨rfl, by decide⟩

/-- Claim C2 (corrected): Every adapter whose `stream` is the inherited
subprocess implementation (`BaseAdapter.stream`, used by the Claude Code
adapter and OpenCode's CLI path), and OpenCode's HTTP streaming path,
delivers exactly one `routing` event first, then zero or more `output`
events, then exactly one terminal event (`complete` or `error`) and nothing
afterwards — but the placeholder Cursor and Aider adapters override `stream`
to deliver exactly one `error` event with no `routing` event at all. -/
theorem C2_stream_event_order :
    (∀ (name : String) (command : Option String) (request : ToolRequest)
        (env : StreamEnv),
      isWellFormedTrace (BaseAdapter.streamTrace name command request env) =
        true) ∧
    (∀ (endpoint : Option String) (request : ToolRequest)
        (env : HttpStreamEnv),
      isWellFormedTrace
        (OpenCodeAdapter.streamViaApiTrace endpoint request env) = true) ∧
    (∀ (endpoint command : Option String) (request : ToolRequest)
        (henv : HttpStreamEnv) (senv : StreamEnv),
      isWellFormedTrace
        (OpenCodeAdapter.streamTrace endpoint command request henv senv) =
        true) ∧
    (∀ request, CursorAdapter.streamTrace request =
      [StreamEvent.error "Cursor adapter is not yet implemented"]) ∧
    (∀ request, AiderAdapter.streamTrace request =
      [StreamEvent.error "Aider adapter is not yet implemented"]) := by
  refine ⟨base_streamTrace_wf, opencode_streamViaApi_wf, ?_,
    fun _ => rfl, fun _ => rfl⟩
  intro endpoint command request henv senv
  unfold OpenCodeAdapter.streamTrace
  by_cases h : commandMissing endpoint = true
  · simp only [h, Bool.not_true, Bool.false_eq_true, if_false]
    exact base_streamTrace_wf _ _ _ _
  · have h' : commandMissing endpoint = false := by
      simpa using h
    simp only [h', Bool.not_false, if_true]
    exact opencode_streamViaApi_wf _ _ _

end Vibely
